import Mathlib

/-!
Shallow embedding of `GyroSpace.h` (GyroSpace-and-Play).

Floats are idealized as real numbers. Where the C code explicitly tests
`isnan` on its inputs (the gravity-estimate mutators), the inputs are
modelled by the type `GF`, a real number or NaN, so that the NaN-checking
control flow of the source is preserved. The C statics (the process-wide
gravity estimate `gravNorm` and the per-function `smoothedTiltFactor`
accumulators) become explicit state parameters: each stateful function
takes the prior state and returns the new one.
-/

namespace GyroSpace

noncomputable section

open scoped Classical

/-- A C `float` input that may be NaN: either NaN or a (finite, idealized) real. -/
inductive GF where
  | nan : GF
  | fin : ℝ → GF

/-- Mirrors C `isnan` on a `GF` input. -/
def isnan : GF → Bool
  | GF.nan => true
  | GF.fin _ => false

/-- The real value of a non-NaN `GF` (the NaN case is unreachable behind the
`isnan` guards of the source). -/
def GF.toReal : GF → ℝ
  | GF.nan => 0
  | GF.fin x => x

/-- `Vector3` from the source: a triple of floats, idealized as reals. -/
@[ext]
structure Vector3 where
  x : ℝ
  y : ℝ
  z : ℝ

/-- A `Vector3`-shaped sensor input whose components may be NaN. -/
structure Vector3G where
  x : GF
  y : GF
  z : GF

/-- Extract the real components of a sensor input (behind the NaN guard). -/
def Vector3G.toVec3 (v : Vector3G) : Vector3 :=
  ⟨v.x.toReal, v.y.toReal, v.z.toReal⟩

/-- Inject an ordinary vector as a (NaN-free) sensor input. -/
def Vector3.toG (v : Vector3) : Vector3G :=
  ⟨GF.fin v.x, GF.fin v.y, GF.fin v.z⟩

/-- `EPSILON` from the source. -/
def EPSILON : ℝ := 1e-5

/-- `clamp(value, min, max)` from the source (nested conditional). -/
def clamp (value lo hi : ℝ) : ℝ :=
  if value > hi then hi else if value < lo then lo else value

/-- `Vec3_New` from the source. -/
def Vec3_New (x y z : ℝ) : Vector3 := ⟨x, y, z⟩

/-- `Vec3_Add` from the source. -/
def Vec3_Add (a b : Vector3) : Vector3 :=
  Vec3_New (a.x + b.x) (a.y + b.y) (a.z + b.z)

/-- `Vec3_Subtract` from the source. -/
def Vec3_Subtract (a b : Vector3) : Vector3 :=
  Vec3_New (a.x - b.x) (a.y - b.y) (a.z - b.z)

/-- `Vec3_Scale` from the source. -/
def Vec3_Scale (v : Vector3) (scalar : ℝ) : Vector3 :=
  Vec3_New (v.x * scalar) (v.y * scalar) (v.z * scalar)

/-- `Vec3_Dot` from the source. -/
def Vec3_Dot (a b : Vector3) : ℝ :=
  a.x * b.x + a.y * b.y + a.z * b.z

/-- `Vec3_Cross` from the source. -/
def Vec3_Cross (a b : Vector3) : Vector3 :=
  Vec3_New (a.y * b.z - a.z * b.y) (a.z * b.x - a.x * b.z) (a.x * b.y - a.y * b.x)

/-- `Vec3_Magnitude` from the source (`sqrtf(x*x + y*y + z*z)`). -/
def Vec3_Magnitude (v : Vector3) : ℝ :=
  Real.sqrt (v.x * v.x + v.y * v.y + v.z * v.z)

/-- `Vec3_Normalize` from the source: zero vector when the magnitude is below
`EPSILON`, otherwise the vector scaled by the reciprocal magnitude. -/
def Vec3_Normalize (v : Vector3) : Vector3 :=
  if Vec3_Magnitude v < EPSILON then Vec3_New 0 0 0
  else Vec3_Scale v (1 / Vec3_Magnitude v)

/-- `Vec3_IsZero` from the source: every component small in absolute value. -/
def Vec3_IsZero (v : Vector3) : Prop :=
  |v.x| < EPSILON ∧ |v.y| < EPSILON ∧ |v.z| < EPSILON

/-- `Vec3_Lerp` from the source: `a + (b - a) * t`. -/
def Vec3_Lerp (a b : Vector3) (t : ℝ) : Vector3 :=
  Vec3_Add a (Vec3_Scale (Vec3_Subtract b a) t)

/-- `Matrix4` from the source: a 4×4 float matrix, fields `mIJ` for `m[I][J]`. -/
structure Matrix4 where
  m00 : ℝ
  m01 : ℝ
  m02 : ℝ
  m03 : ℝ
  m10 : ℝ
  m11 : ℝ
  m12 : ℝ
  m13 : ℝ
  m20 : ℝ
  m21 : ℝ
  m22 : ℝ
  m23 : ℝ
  m30 : ℝ
  m31 : ℝ
  m32 : ℝ
  m33 : ℝ

/-- `Matrix4_Identity` from the source. -/
def Matrix4_Identity : Matrix4 :=
  ⟨1, 0, 0, 0,
   0, 1, 0, 0,
   0, 0, 1, 0,
   0, 0, 0, 1⟩

/-- `MultiplyMatrixVector` from the source (row-major, implicit `w = 1`). -/
def MultiplyMatrixVector (matrix : Matrix4) (vector : Vector3) : Vector3 :=
  let w : ℝ := 1
  Vec3_New
    (matrix.m00 * vector.x + matrix.m10 * vector.y + matrix.m20 * vector.z + matrix.m30 * w)
    (matrix.m01 * vector.x + matrix.m11 * vector.y + matrix.m21 * vector.z + matrix.m31 * w)
    (matrix.m02 * vector.x + matrix.m12 * vector.y + matrix.m22 * vector.z + matrix.m32 * w)

/-- The initial value of the global `gravNorm` (default gravity `(0,1,0)`). -/
def gravNorm0 : Vector3 := ⟨0, 1, 0⟩

/-- `UpdateGravityVector` from the source, with the global `gravNorm` passed
in and the new value returned. Rejects a fusion factor outside `[0,1]` and
NaN sensor components, otherwise fuses and re-normalizes (falling back to the
default when the blend degenerates to near-zero). -/
def UpdateGravityVector (accel gyroRotation : Vector3G) (fusionFactor : ℝ)
    (gravNorm : Vector3) : Vector3 :=
  if fusionFactor < 0 ∨ fusionFactor > 1 then gravNorm
  else if isnan accel.x || isnan accel.y || isnan accel.z ||
          isnan gyroRotation.x || isnan gyroRotation.y || isnan gyroRotation.z then gravNorm
  else
    let accelNorm := Vec3_Normalize accel.toVec3
    let rotatedGravity := Vec3_Add gravNorm (Vec3_Cross gyroRotation.toVec3 gravNorm)
    let blended := Vec3_Lerp rotatedGravity accelNorm fusionFactor
    if ¬ Vec3_IsZero blended then Vec3_Normalize blended
    else Vec3_New 0 1 0

/-- `SetGravityVector` from the source, with the global `gravNorm` passed in
and the new value returned. NaN input resets to the default; near-zero input
retains the previous value; otherwise the input is normalized and stored. -/
def SetGravityVector (x y z : GF) (gravNorm : Vector3) : Vector3 :=
  if isnan x || isnan y || isnan z then Vec3_New 0 1 0
  else
    let newGravNorm := Vec3_New x.toReal y.toReal z.toReal
    if Vec3_Magnitude newGravNorm < EPSILON then gravNorm
    else Vec3_Normalize newGravNorm

/-- Modelled from the spec: the reset operation (`resetGravity()` / `reset()`)
appears in the spec's interface but is absent from the sources under `src/`;
per the spec it "unconditionally sets `gravity` to default (0,1,0)". -/
def resetGravity (_gravNorm : Vector3) : Vector3 := ⟨0, 1, 0⟩

/-- `TransformToLocalSpace` from the source. The static `smoothedTiltFactor`
is passed in and the updated value is returned alongside the output vector;
the global gravity read by `GetGravityVector()` is the `grav` parameter. -/
def TransformToLocalSpace (yaw pitch roll yawSensitivity pitchSensitivity
    rollSensitivity couplingFactor : ℝ) (grav : Vector3)
    (smoothedTiltFactor : ℝ) : Vector3 × ℝ :=
  let tiltFactor := |grav.y| ^ (0.75 : ℝ)
  let blendAmount := clamp tiltFactor 0 1
  let smoothingFactor : ℝ := 0.1
  let s := smoothedTiltFactor + smoothingFactor * (blendAmount - smoothedTiltFactor)
  let adjustedRoll := (s * roll * rollSensitivity) - (yaw * couplingFactor)
  let rawGyro := Vec3_New
    ((yaw * yawSensitivity) - adjustedRoll)
    ((s * pitch * pitchSensitivity) + ((1 - s) * pitch))
    ((s * roll * rollSensitivity) + ((1 - s) * roll))
  let rawGyro2 := Vec3_New rawGyro.x rawGyro.y (-rawGyro.z * (1 - couplingFactor))
  (rawGyro2, s)

/-- `TransformToPlayerSpace` from the source, with its static
`smoothedTiltFactor` passed in and returned. -/
def TransformToPlayerSpace (yaw_input pitch_input roll_input : ℝ)
    (gravNorm : Vector3) (yawSensitivity pitchSensitivity rollSensitivity : ℝ)
    (smoothedTiltFactor : ℝ) : Vector3 × ℝ :=
  let g := if Vec3_IsZero gravNorm then Vec3_New 0 1 0 else gravNorm
  let tiltFactor := |g.y| ^ (0.75 : ℝ)
  let blendAmount := clamp tiltFactor 0 1
  let smoothingFactor : ℝ := 0.1
  let s := smoothedTiltFactor + smoothingFactor * (blendAmount - smoothedTiltFactor)
  let yawRelaxFactor : ℝ := 1.41
  let worldYaw := yaw_input * g.y + roll_input * g.z
  let localYaw := (s * yaw_input * yawSensitivity)
    + ((1 - s) * roll_input * rollSensitivity)
  let adjustedYaw := worldYaw * yawRelaxFactor + localYaw * (1 - yawRelaxFactor)
  let adjustedPitch := (s * pitch_input * pitchSensitivity)
    + ((1 - s) * pitch_input)
  let adjustedRoll := (s * roll_input * rollSensitivity)
    + ((1 - s) * yaw_input * yawSensitivity)
  let adjustedRoll2 := -adjustedRoll
  let playerViewMatrix := Matrix4_Identity
  let adjustedGyro := Vec3_New adjustedYaw adjustedPitch adjustedRoll2
  let playerGyro := MultiplyMatrixVector playerViewMatrix adjustedGyro
  (playerGyro, s)

/-- `TransformToWorldSpace` from the source, with its static
`smoothedTiltFactor` passed in and returned. -/
def TransformToWorldSpace (yaw_input pitch_input roll_input : ℝ)
    (gravNorm : Vector3) (yawSensitivity pitchSensitivity rollSensitivity : ℝ)
    (smoothedTiltFactor : ℝ) : Vector3 × ℝ :=
  let g := if Vec3_IsZero gravNorm then Vec3_New 0 1 0 else gravNorm
  let tiltFactor := |g.y| ^ (0.75 : ℝ)
  let blendAmount := clamp tiltFactor 0 1
  let smoothingFactor : ℝ := 0.1
  let s := smoothedTiltFactor + smoothingFactor * (blendAmount - smoothedTiltFactor)
  let rawGyro := Vec3_New
    ((s * pitch_input * pitchSensitivity) + ((1 - s) * pitch_input))
    (-(yaw_input * yawSensitivity))
    ((s * roll_input * rollSensitivity) + ((1 - s) * yaw_input * yawSensitivity))
  let rawGyro2 := Vec3_New rawGyro.x rawGyro.y (-rawGyro.z)
  let gravDotPitch := Vec3_Dot g (Vec3_New 1 0 0)
  let pitchAxis0 := Vec3_Subtract (Vec3_New 1 0 0) (Vec3_Scale g gravDotPitch)
  let pitchAxis := if ¬ Vec3_IsZero pitchAxis0 then Vec3_Normalize pitchAxis0 else pitchAxis0
  let gravDotRoll := Vec3_Dot g (Vec3_New 0 0 1)
  let rollAxis0 := Vec3_Subtract (Vec3_New 0 0 1) (Vec3_Scale g gravDotRoll)
  let rollAxis := if ¬ Vec3_IsZero rollAxis0 then Vec3_Normalize rollAxis0 else rollAxis0
  let worldGyro := Vec3_New
    (-(Vec3_Dot rawGyro2 g))
    (Vec3_Dot rawGyro2 pitchAxis)
    (Vec3_Dot rawGyro2 rollAxis)
  (worldGyro, s)

/-- The statics of the library gathered into one state record: the global
gravity estimate and the four per-function `smoothedTiltFactor` accumulators
(dynamic orientation, Local, Player, World). -/
structure GyroState where
  gravNorm : Vector3
  tiltDyn : ℝ
  tiltLocal : ℝ
  tiltPlayer : ℝ
  tiltWorld : ℝ

/-- `TransformWithDynamicOrientation` from the source: reads the gravity
estimate, smooths its own tilt factor, scales the inputs, applies the Local
transform, then dispatches on `gravNorm.y > 0.5` to the Player or World
transform. -/
def TransformWithDynamicOrientation (yaw_input pitch_input roll_input
    yawSensitivity pitchSensitivity rollSensitivity couplingFactor : ℝ)
    (st : GyroState) : Vector3 × GyroState :=
  let gravNorm := st.gravNorm
  let tiltFactor := |gravNorm.y| ^ (0.75 : ℝ)
  let blendAmount := clamp tiltFactor 0 1
  let smoothingFactor : ℝ := 0.1
  let sDyn := st.tiltDyn + smoothingFactor * (blendAmount - st.tiltDyn)
  let dynamicYaw := yaw_input * yawSensitivity
  let dynamicPitch := (sDyn * pitch_input * pitchSensitivity) + ((1 - sDyn) * pitch_input)
  let dynamicRoll := (sDyn * roll_input * rollSensitivity) + ((1 - sDyn) * roll_input)
  let localRes := TransformToLocalSpace dynamicYaw dynamicPitch dynamicRoll
    yawSensitivity pitchSensitivity rollSensitivity couplingFactor gravNorm st.tiltLocal
  let localGyro := localRes.1
  if gravNorm.y > 0.5 then
    let p := TransformToPlayerSpace localGyro.x localGyro.y localGyro.z gravNorm
      yawSensitivity pitchSensitivity rollSensitivity st.tiltPlayer
    (p.1, { st with tiltDyn := sDyn, tiltLocal := localRes.2, tiltPlayer := p.2 })
  else
    let w := TransformToWorldSpace localGyro.x localGyro.y localGyro.z gravNorm
      yawSensitivity pitchSensitivity rollSensitivity st.tiltWorld
    (w.1, { st with tiltDyn := sDyn, tiltLocal := localRes.2, tiltWorld := w.2 })

/-! ### Helper lemmas about the vector primitives -/

theorem sumsq_nonneg (v : Vector3) : 0 ≤ v.x * v.x + v.y * v.y + v.z * v.z := by
  nlinarith [mul_self_nonneg v.x, mul_self_nonneg v.y, mul_self_nonneg v.z]

theorem Vec3_Magnitude_nonneg (v : Vector3) : 0 ≤ Vec3_Magnitude v :=
  Real.sqrt_nonneg _

theorem Vec3_Magnitude_mul_self (v : Vector3) :
    Vec3_Magnitude v * Vec3_Magnitude v = v.x * v.x + v.y * v.y + v.z * v.z :=
  Real.mul_self_sqrt (sumsq_nonneg v)

theorem Vec3_Magnitude_scale (v : Vector3) (c : ℝ) :
    Vec3_Magnitude (Vec3_Scale v c) = |c| * Vec3_Magnitude v := by
  unfold Vec3_Magnitude Vec3_Scale Vec3_New
  have h : v.x * c * (v.x * c) + v.y * c * (v.y * c) + v.z * c * (v.z * c)
      = (c * c) * (v.x * v.x + v.y * v.y + v.z * v.z) := by ring
  rw [h, Real.sqrt_mul (mul_self_nonneg c), Real.sqrt_mul_self_eq_abs]

theorem abs_x_le_Vec3_Magnitude (v : Vector3) : |v.x| ≤ Vec3_Magnitude v := by
  rw [← Real.sqrt_mul_self_eq_abs]
  exact Real.sqrt_le_sqrt (by nlinarith [mul_self_nonneg v.y, mul_self_nonneg v.z])

theorem abs_y_le_Vec3_Magnitude (v : Vector3) : |v.y| ≤ Vec3_Magnitude v := by
  rw [← Real.sqrt_mul_self_eq_abs]
  exact Real.sqrt_le_sqrt (by nlinarith [mul_self_nonneg v.x, mul_self_nonneg v.z])

theorem abs_z_le_Vec3_Magnitude (v : Vector3) : |v.z| ≤ Vec3_Magnitude v := by
  rw [← Real.sqrt_mul_self_eq_abs]
  exact Real.sqrt_le_sqrt (by nlinarith [mul_self_nonneg v.x, mul_self_nonneg v.y])

theorem Vec3_IsZero_of_mag_lt {v : Vector3} (h : Vec3_Magnitude v < EPSILON) :
    Vec3_IsZero v :=
  ⟨lt_of_le_of_lt (abs_x_le_Vec3_Magnitude v) h,
   lt_of_le_of_lt (abs_y_le_Vec3_Magnitude v) h,
   lt_of_le_of_lt (abs_z_le_Vec3_Magnitude v) h⟩

theorem eps_le_mag_of_not_isZero {v : Vector3} (h : ¬ Vec3_IsZero v) :
    EPSILON ≤ Vec3_Magnitude v :=
  not_lt.1 fun hc => h (Vec3_IsZero_of_mag_lt hc)

theorem Vec3_Normalize_eq_scale {v : Vector3} (h : EPSILON ≤ Vec3_Magnitude v) :
    Vec3_Normalize v = Vec3_Scale v (1 / Vec3_Magnitude v) := by
  unfold Vec3_Normalize
  rw [if_neg (not_lt.2 h)]

theorem mag_pos_of_eps_le {v : Vector3} (h : EPSILON ≤ Vec3_Magnitude v) :
    0 < Vec3_Magnitude v :=
  lt_of_lt_of_le (by norm_num [EPSILON]) h

theorem Vec3_Magnitude_normalize {v : Vector3} (h : EPSILON ≤ Vec3_Magnitude v) :
    Vec3_Magnitude (Vec3_Normalize v) = 1 := by
  rw [Vec3_Normalize_eq_scale h, Vec3_Magnitude_scale]
  have hpos : 0 < Vec3_Magnitude v := mag_pos_of_eps_le h
  rw [abs_of_pos (by positivity)]
  field_simp

theorem not_isZero_of_mag_one {v : Vector3} (h : Vec3_Magnitude v = 1) :
    ¬ Vec3_IsZero v := by
  rintro ⟨hx, hy, hz⟩
  have hs : v.x * v.x + v.y * v.y + v.z * v.z = 1 := by
    rw [← Vec3_Magnitude_mul_self, h]; norm_num
  have hx2 : v.x * v.x < EPSILON * EPSILON := by
    calc v.x * v.x = |v.x| * |v.x| := (abs_mul_abs_self v.x).symm
    _ < EPSILON * EPSILON := by
        apply mul_lt_mul'' hx hx (abs_nonneg _) (abs_nonneg _)
  have hy2 : v.y * v.y < EPSILON * EPSILON := by
    calc v.y * v.y = |v.y| * |v.y| := (abs_mul_abs_self v.y).symm
    _ < EPSILON * EPSILON := by
        apply mul_lt_mul'' hy hy (abs_nonneg _) (abs_nonneg _)
  have hz2 : v.z * v.z < EPSILON * EPSILON := by
    calc v.z * v.z = |v.z| * |v.z| := (abs_mul_abs_self v.z).symm
    _ < EPSILON * EPSILON := by
        apply mul_lt_mul'' hz hz (abs_nonneg _) (abs_nonneg _)
  rw [EPSILON] at hx2 hy2 hz2
  norm_num at hx2 hy2 hz2
  linarith

theorem Vec3_Normalize_self {v : Vector3} (h : Vec3_Magnitude v = 1) :
    Vec3_Normalize v = v := by
  rw [Vec3_Normalize_eq_scale (by rw [h]; norm_num [EPSILON]), h]
  unfold Vec3_Scale Vec3_New
  simp

theorem mag_gravNorm0 : Vec3_Magnitude gravNorm0 = 1 := by
  unfold Vec3_Magnitude gravNorm0
  norm_num

theorem mag_new010 : Vec3_Magnitude (Vec3_New 0 1 0) = 1 := by
  unfold Vec3_Magnitude Vec3_New
  norm_num

theorem toVec3_toG (v : Vector3) : (Vector3.toG v).toVec3 = v := rfl

/-! ### Claim theorems -/

/-- Claim C8: the `Vec3_Normalize` contract — for every vector of magnitude at
least `EPSILON` the result equals the vector scaled by the reciprocal of its
magnitude (`v / |v|`) and has magnitude 1; for every vector of magnitude below
`EPSILON` the result is exactly the zero vector (the function is total, so it
never raises, and it never divides by a near-zero magnitude). -/
theorem C8_Vec3_Normalize_contract (v : Vector3) :
    (EPSILON ≤ Vec3_Magnitude v →
      Vec3_Normalize v = Vec3_Scale v (1 / Vec3_Magnitude v) ∧
      Vec3_Magnitude (Vec3_Normalize v) = 1) ∧
    (Vec3_Magnitude v < EPSILON → Vec3_Normalize v = Vec3_New 0 0 0) := by
  constructor
  · intro h
    exact ⟨Vec3_Normalize_eq_scale h, Vec3_Magnitude_normalize h⟩
  · intro h
    unfold Vec3_Normalize
    rw [if_pos h]

/-- Witness for C8 at the concrete vectors `(0,1,0)` and `(0,0,0)`. -/
theorem C8_witness :
    (EPSILON ≤ Vec3_Magnitude ⟨0, 1, 0⟩ ∧
      Vec3_Normalize ⟨0, 1, 0⟩ = Vec3_Scale ⟨0, 1, 0⟩ (1 / Vec3_Magnitude ⟨0, 1, 0⟩) ∧
      Vec3_Magnitude (Vec3_Normalize ⟨0, 1, 0⟩) = 1) ∧
    (Vec3_Magnitude ⟨0, 0, 0⟩ < EPSILON ∧
      Vec3_Normalize ⟨0, 0, 0⟩ = Vec3_New 0 0 0) := by
  have h1 : Vec3_Magnitude (⟨0, 1, 0⟩ : Vector3) = 1 := by
    unfold Vec3_Magnitude; norm_num
  have h0 : Vec3_Magnitude (⟨0, 0, 0⟩ : Vector3) = 0 := by
    unfold Vec3_Magnitude; norm_num
  have he1 : EPSILON ≤ Vec3_Magnitude (⟨0, 1, 0⟩ : Vector3) := by
    rw [h1]; norm_num [EPSILON]
  have he0 : Vec3_Magnitude (⟨0, 0, 0⟩ : Vector3) < EPSILON := by
    rw [h0]; norm_num [EPSILON]
  exact ⟨⟨he1, (C8_Vec3_Normalize_contract _).1 he1⟩,
         he0, (C8_Vec3_Normalize_contract _).2 he0⟩

/-- Claim C9: the reset operation unconditionally sets the gravity estimate to
the default `(0,1,0)` regardless of the current value (the operation is
modelled from the spec, being absent from the sources under `src/`). -/
theorem C9_resetGravity_default (g : Vector3) :
    resetGravity g = Vec3_New 0 1 0 := rfl

/-- Claim C1: gravity-estimate invariant — the default estimate has unit
magnitude, and both gravity operations preserve unit magnitude for arbitrary
arguments: every accepted mutation ends by normalizing or substituting the
default, and every rejected one keeps the previous (normalized) value. -/
theorem C1_grav_unit_invariant :
    Vec3_Magnitude gravNorm0 = 1 ∧
    ∀ (g : Vector3) (accel gyroRotation : Vector3G) (fusionFactor : ℝ) (x y z : GF),
      Vec3_Magnitude g = 1 →
      Vec3_Magnitude (UpdateGravityVector accel gyroRotation fusionFactor g) = 1 ∧
      Vec3_Magnitude (SetGravityVector x y z g) = 1 := by
  refine ⟨mag_gravNorm0, ?_⟩
  intro g accel gyro f x y z hg
  constructor
  · simp only [UpdateGravityVector]
    split
    · exact hg
    split
    · exact hg
    split
    · next h => exact Vec3_Magnitude_normalize (eps_le_mag_of_not_isZero h)
    · exact mag_new010
  · simp only [SetGravityVector]
    split
    · exact mag_new010
    split
    · exact hg
    · next h => exact Vec3_Magnitude_normalize (not_lt.1 h)

/-- Witness for C1: the invariant applied at the default estimate with a
concrete update and a concrete set. -/
theorem C1_witness :
    Vec3_Magnitude gravNorm0 = 1 ∧
    Vec3_Magnitude (UpdateGravityVector (Vector3.toG ⟨0, 1, 0⟩)
      (Vector3.toG ⟨0, 0, 0⟩) (1 / 2) gravNorm0) = 1 ∧
    Vec3_Magnitude (SetGravityVector (GF.fin 3) (GF.fin 4) (GF.fin 0) gravNorm0) = 1 := by
  obtain ⟨h0, h⟩ := C1_grav_unit_invariant
  have hh := h gravNorm0 (Vector3.toG ⟨0, 1, 0⟩) (Vector3.toG ⟨0, 0, 0⟩) (1 / 2)
    (GF.fin 3) (GF.fin 4) (GF.fin 0) h0
  exact ⟨h0, hh.1, hh.2⟩

/-- Claim C2: `UpdateGravityVector` rejects with no state change whenever the
fusion factor lies outside `[0,1]`, and whenever any accelerometer or
gyro-rotation component is NaN. -/
theorem C2_update_rejects (accel gyroRotation : Vector3G) (fusionFactor : ℝ)
    (g : Vector3) :
    ((fusionFactor < 0 ∨ fusionFactor > 1) →
      UpdateGravityVector accel gyroRotation fusionFactor g = g) ∧
    ((isnan accel.x = true ∨ isnan accel.y = true ∨ isnan accel.z = true ∨
      isnan gyroRotation.x = true ∨ isnan gyroRotation.y = true ∨
      isnan gyroRotation.z = true) →
      UpdateGravityVector accel gyroRotation fusionFactor g = g) := by
  constructor
  · intro h
    simp only [UpdateGravityVector]
    rw [if_pos h]
  · intro h
    have hb : (isnan accel.x || isnan accel.y || isnan accel.z ||
        isnan gyroRotation.x || isnan gyroRotation.y || isnan gyroRotation.z) = true := by
      simp only [Bool.or_eq_true]
      tauto
    simp only [UpdateGravityVector]
    split
    · rfl
    · rfl

/-- Witness for C2: rejection at fusion factor `1.3` and at a NaN
accelerometer component, each leaving the concrete prior estimate in place. -/
theorem C2_witness :
    ((13 / 10 : ℝ) < 0 ∨ (13 / 10 : ℝ) > 1) ∧
    UpdateGravityVector (Vector3.toG ⟨0, 1, 0⟩) (Vector3.toG ⟨0, 0, 0⟩)
      (13 / 10) ⟨1, 0, 0⟩ = ⟨1, 0, 0⟩ ∧
    UpdateGravityVector ⟨GF.nan, GF.fin 0, GF.fin 0⟩ (Vector3.toG ⟨0, 0, 0⟩)
      (1 / 2) ⟨1, 0, 0⟩ = ⟨1, 0, 0⟩ := by
  have h1 : (13 / 10 : ℝ) < 0 ∨ (13 / 10 : ℝ) > 1 := Or.inr (by norm_num)
  exact ⟨h1, (C2_update_rejects _ _ _ _).1 h1,
    (C2_update_rejects _ _ _ _).2 (Or.inl rfl)⟩

/-- Claim C5: gravity fusion is idempotent at its fixed point — with a
normalized current estimate `g`, updating with accelerometer `g` and zero
gyro rotation leaves the estimate unchanged for every fusion factor in
`[0,1]`. -/
theorem C5_update_idempotent (g : Vector3) (f : ℝ)
    (hg : Vec3_Magnitude g = 1) (h0 : 0 ≤ f) (h1 : f ≤ 1) :
    UpdateGravityVector (Vector3.toG g) (Vector3.toG ⟨0, 0, 0⟩) f g = g := by
  have hrange : ¬ (f < 0 ∨ f > 1) := by
    push_neg
    exact ⟨h0, h1⟩
  have hguard : ¬ ((isnan (Vector3.toG g).x || isnan (Vector3.toG g).y ||
      isnan (Vector3.toG g).z || isnan (Vector3.toG (⟨0, 0, 0⟩ : Vector3)).x ||
      isnan (Vector3.toG (⟨0, 0, 0⟩ : Vector3)).y ||
      isnan (Vector3.toG (⟨0, 0, 0⟩ : Vector3)).z) = true) := by
    simp [Vector3.toG, isnan]
  simp only [UpdateGravityVector]
  rw [if_neg hrange, if_neg hguard, toVec3_toG, toVec3_toG]
  have hlerp : Vec3_Lerp (Vec3_Add g (Vec3_Cross (⟨0, 0, 0⟩ : Vector3) g))
      (Vec3_Normalize g) f = g := by
    rw [Vec3_Normalize_self hg]
    unfold Vec3_Lerp Vec3_Add Vec3_Cross Vec3_Subtract Vec3_Scale Vec3_New
    ext <;> (simp only []; ring)
  rw [hlerp, if_pos (not_isZero_of_mag_one hg), Vec3_Normalize_self hg]

/-- Witness for C5 at the default estimate and fusion factor `1/2`. -/
theorem C5_witness :
    Vec3_Magnitude gravNorm0 = 1 ∧ (0 : ℝ) ≤ 1 / 2 ∧ (1 / 2 : ℝ) ≤ 1 ∧
    UpdateGravityVector (Vector3.toG gravNorm0) (Vector3.toG ⟨0, 0, 0⟩)
      (1 / 2) gravNorm0 = gravNorm0 :=
  ⟨mag_gravNorm0, by norm_num, by norm_num,
    C5_update_idempotent gravNorm0 (1 / 2) mag_gravNorm0 (by norm_num) (by norm_num)⟩

/-- Counterexample to claim C3 as stated: with a NaN component,
`SetGravityVector` is not a no-op — starting from gravity `(1,0,0)` it resets
the estimate to the default `(0,1,0)` instead of leaving it unchanged. -/
theorem C3_counterexample :
    SetGravityVector GF.nan (GF.fin 0) (GF.fin 0) ⟨1, 0, 0⟩ = ⟨0, 1, 0⟩ ∧
    SetGravityVector GF.nan (GF.fin 0) (GF.fin 0) ⟨1, 0, 0⟩ ≠ ⟨1, 0, 0⟩ := by
  have h : SetGravityVector GF.nan (GF.fin 0) (GF.fin 0) ⟨1, 0, 0⟩
      = (⟨0, 1, 0⟩ : Vector3) := rfl
  refine ⟨h, ?_⟩
  rw [h]
  intro hEq
  have hx := congrArg Vector3.x hEq
  norm_num at hx

/-- Claim C3 (amended): `SetGravityVector` resets the estimate to the default
`(0,1,0)` on any NaN component; on near-zero input magnitude it retains the
previous value; otherwise it stores the normalized input. -/
theorem C3_set_contract (x y z : GF) (a b c : ℝ) (g : Vector3) :
    ((isnan x = true ∨ isnan y = true ∨ isnan z = true) →
      SetGravityVector x y z g = Vec3_New 0 1 0) ∧
    (Vec3_Magnitude (Vec3_New a b c) < EPSILON →
      SetGravityVector (GF.fin a) (GF.fin b) (GF.fin c) g = g) ∧
    (EPSILON ≤ Vec3_Magnitude (Vec3_New a b c) →
      SetGravityVector (GF.fin a) (GF.fin b) (GF.fin c) g
        = Vec3_Normalize (Vec3_New a b c)) := by
  refine ⟨?_, ?_, ?_⟩
  · intro h
    have hb : (isnan x || isnan y || isnan z) = true := by
      simp only [Bool.or_eq_true]
      tauto
    simp only [SetGravityVector]
    rw [if_pos hb]
  · intro h
    simp only [SetGravityVector, isnan, GF.toReal, Bool.or_self, Bool.false_eq_true,
      if_false]
    rw [if_pos h]
  · intro h
    simp only [SetGravityVector, isnan, GF.toReal, Bool.or_self, Bool.false_eq_true,
      if_false]
    rw [if_neg (not_lt.2 h)]

/-- Witness for C3 (amended) on the NaN, near-zero and normalizing branches. -/
theorem C3_witness :
    (isnan GF.nan = true ∧
      SetGravityVector GF.nan (GF.fin 0) (GF.fin 0) ⟨1, 0, 0⟩ = Vec3_New 0 1 0) ∧
    (Vec3_Magnitude (Vec3_New 0 0 0) < EPSILON ∧
      SetGravityVector (GF.fin 0) (GF.fin 0) (GF.fin 0) ⟨1, 0, 0⟩ = ⟨1, 0, 0⟩) ∧
    (EPSILON ≤ Vec3_Magnitude (Vec3_New 0 1 0) ∧
      SetGravityVector (GF.fin 0) (GF.fin 1) (GF.fin 0) ⟨1, 0, 0⟩
        = Vec3_Normalize (Vec3_New 0 1 0)) := by
  have hm0 : Vec3_Magnitude (Vec3_New 0 0 0) < EPSILON := by
    unfold Vec3_Magnitude Vec3_New EPSILON
    norm_num
  have hm1 : EPSILON ≤ Vec3_Magnitude (Vec3_New 0 1 0) := by
    rw [mag_new010]
    norm_num [EPSILON]
  exact ⟨⟨rfl, (C3_set_contract GF.nan (GF.fin 0) (GF.fin 0) 0 0 0 ⟨1, 0, 0⟩).1
            (Or.inl rfl)⟩,
         ⟨hm0, (C3_set_contract (GF.fin 0) (GF.fin 0) (GF.fin 0) 0 0 0 ⟨1, 0, 0⟩).2.1 hm0⟩,
         ⟨hm1, (C3_set_contract (GF.fin 0) (GF.fin 1) (GF.fin 0) 0 1 0 ⟨1, 0, 0⟩).2.2 hm1⟩⟩

/-- Claim C4: degenerate-gravity substitution — for all inputs, sensitivities
and identical prior smoothed-tilt state, the Player and World transforms with
gravity `(0,0,0)` return the same output vector and tilt state as with the
default gravity `(0,1,0)`. -/
theorem C4_degenerate_substitution (yaw pitch roll ys ps rs t : ℝ) :
    TransformToPlayerSpace yaw pitch roll (Vec3_New 0 0 0) ys ps rs t
      = TransformToPlayerSpace yaw pitch roll (Vec3_New 0 1 0) ys ps rs t ∧
    TransformToWorldSpace yaw pitch roll (Vec3_New 0 0 0) ys ps rs t
      = TransformToWorldSpace yaw pitch roll (Vec3_New 0 1 0) ys ps rs t := by
  have hz : Vec3_IsZero (Vec3_New 0 0 0) := by
    refine ⟨?_, ?_, ?_⟩ <;> norm_num [Vec3_New, EPSILON]
  have hnz : ¬ Vec3_IsZero (Vec3_New 0 1 0) := by
    rintro ⟨-, hy, -⟩
    norm_num [Vec3_New, EPSILON] at hy
  constructor
  · simp only [TransformToPlayerSpace]
    rw [if_pos hz, if_neg hnz]
  · simp only [TransformToWorldSpace]
    rw [if_pos hz, if_neg hnz]

/-- Counterexample to claim C6 as stated: with prior tilt state `0`, default
gravity, yaw `0`, roll `1`, unit sensitivities and coupling `0`, the x channel
of `TransformToLocalSpace` is `-0.1` (the updated smoothed tilt factor scales
the roll term), not the `-1` the claimed formula
`yaw*yawSens - (roll*rollSens - yaw*coupling)` predicts. -/
theorem C6_counterexample :
    (TransformToLocalSpace 0 0 1 1 1 1 0 (Vec3_New 0 1 0) 0).1.x
      ≠ 0 * 1 - (1 * 1 - 0 * 0) := by
  have habs : |(Vec3_New 0 1 0).y| ^ (0.75 : ℝ) = 1 := by
    rw [show (Vec3_New 0 1 0).y = 1 from rfl, abs_one, Real.one_rpow]
  have hclamp : clamp 1 0 1 = 1 := by
    unfold clamp
    norm_num
  simp only [TransformToLocalSpace, habs, hclamp, Vec3_New]
  norm_num [hclamp]

/-- Claim C6 (amended): in `TransformToLocalSpace` the adjusted roll
subtracted from the yaw output channel equals `s*roll*rollSens -
yaw*coupling`, where `s` is the updated smoothed tilt factor; the x component
of the result equals `yaw*yawSens` minus that adjusted roll (the claimed
formula drops the factor `s` and holds exactly when `s = 1`). -/
theorem C6_local_x_channel (yaw pitch roll ys ps rs cf t : ℝ) (grav : Vector3) :
    (TransformToLocalSpace yaw pitch roll ys ps rs cf grav t).1.x =
      yaw * ys -
        ((t + 0.1 * (clamp (|grav.y| ^ (0.75 : ℝ)) 0 1 - t)) * roll * rs
          - yaw * cf) := by
  simp only [TransformToLocalSpace, Vec3_New]

/-- Claim C7: `TransformWithDynamicOrientation` dispatches on the gravity
threshold — its output is the Player transform of the intermediate
local-space vector when the gravity estimate's y component exceeds `0.5`,
and the World transform of that vector otherwise. -/
theorem C7_dynamic_dispatch (yaw pitch roll ys ps rs cf : ℝ) (st : GyroState) :
    (TransformWithDynamicOrientation yaw pitch roll ys ps rs cf st).1 =
      (let sDyn := st.tiltDyn +
        0.1 * (clamp (|st.gravNorm.y| ^ (0.75 : ℝ)) 0 1 - st.tiltDyn)
       let localGyro := (TransformToLocalSpace (yaw * ys)
         ((sDyn * pitch * ps) + ((1 - sDyn) * pitch))
         ((sDyn * roll * rs) + ((1 - sDyn) * roll))
         ys ps rs cf st.gravNorm st.tiltLocal).1
       if st.gravNorm.y > 0.5 then
         (TransformToPlayerSpace localGyro.x localGyro.y localGyro.z
           st.gravNorm ys ps rs st.tiltPlayer).1
       else
         (TransformToWorldSpace localGyro.x localGyro.y localGyro.z
           st.gravNorm ys ps rs st.tiltWorld).1) := by
  simp only [TransformWithDynamicOrientation]
  by_cases h : st.gravNorm.y > 0.5
  · rw [if_pos h, if_pos h]
  · rw [if_neg h, if_neg h]

/-- Claim C10: `MultiplyMatrixVector` applied to `Matrix4_Identity` is the
identity law, and consequently `TransformToPlayerSpace` returns exactly
`(adjustedYaw, adjustedPitch, -adjustedRoll)` — the orientation matrix it
applies is always the identity, never a gravity-derived basis. -/
theorem C10_player_identity_matrix :
    (∀ v : Vector3, MultiplyMatrixVector Matrix4_Identity v = v) ∧
    (∀ (yaw pitch roll ys ps rs t : ℝ) (grav : Vector3),
      (TransformToPlayerSpace yaw pitch roll grav ys ps rs t).1 =
        (let g := if Vec3_IsZero grav then Vec3_New 0 1 0 else grav
         let s := t + 0.1 * (clamp (|g.y| ^ (0.75 : ℝ)) 0 1 - t)
         let adjustedYaw := (yaw * g.y + roll * g.z) * 1.41
           + ((s * yaw * ys) + ((1 - s) * roll * rs)) * (1 - 1.41)
         let adjustedPitch := (s * pitch * ps) + ((1 - s) * pitch)
         let adjustedRoll := (s * roll * rs) + ((1 - s) * yaw * ys)
         Vec3_New adjustedYaw adjustedPitch (-adjustedRoll))) := by
  have hid : ∀ v : Vector3, MultiplyMatrixVector Matrix4_Identity v = v := by
    intro v
    unfold MultiplyMatrixVector Matrix4_Identity Vec3_New
    ext <;> (simp only []; ring)
  refine ⟨hid, ?_⟩
  intro yaw pitch roll ys ps rs t grav
  simp only [TransformToPlayerSpace]
  rw [hid]

end

end GyroSpace
